import Mathlib

/-!
# Hamming byte codec (`hamming.c`)

A shallow embedding of `hamming_encode` and `hamming_verify`.

* A `uint8_t` is a natural number below `256`; every assignment to a
  `uint8_t` variable is followed by `u8`, the reduction modulo `2 ^ 8`
  (the operands of `&`, `|`, `<<` are promoted to `int` in C, and the
  result is truncated when it is stored).
* `bool f (uint8_t in, uint8_t* out)` becomes `Nat → Option Nat`:
  `none` is `return false` (the out-parameter is left untouched),
  `some v` is `return true` after `*out = v`.
* The calls to `printf` are diagnostic and are left out.
-/

namespace Hamming

/-! ## Machine integers -/

/-- Largest value of a `uint8_t` (`UINT8_MAX` of `<stdint.h>`). -/
def UINT8_MAX : Nat := 255

/-- Truncation of an `int` result to `uint8_t` on assignment. -/
def u8 (x : Nat) : Nat := x % 256

/-! ## The three bit counters

The blocks `// r0`, `// c0c1`, `// c0c2` occur twice in `hamming.c`, with
the same text, in `hamming_encode` (lines 64-81, 85-102, 106-123) and in
`hamming_verify` (lines 147-164, 168-185, 189-206).  Each starts a counter
at `0` and runs four `if ((in & mask) != 0) counter++;` statements. -/

/-- One statement `if ((in & mask) != 0) { counter++; }`. -/
def count_if_set (input mask counter : Nat) : Nat :=
  if (input &&& mask) ≠ 0 then u8 (counter + 1) else counter

/-- The block `// r0`: masks `0b010000000`, `0b00010000`, `0b00000100`,
`0b00000001`, in this order.  The first literal has nine digits: it is `128`,
bit 7. -/
def r0_bits_set (input : Nat) : Nat :=
  let r0_bits_set := 0
  let r0_bits_set := count_if_set input 0b010000000 r0_bits_set
  let r0_bits_set := count_if_set input 0b00010000 r0_bits_set
  let r0_bits_set := count_if_set input 0b00000100 r0_bits_set
  let r0_bits_set := count_if_set input 0b00000001 r0_bits_set
  r0_bits_set

/-- The block `// c0c1`: masks `0b00001000`, `0b00000100`, `0b00000010`,
`0b00000001`. -/
def c0c1_bits_set (input : Nat) : Nat :=
  let c0c1_bits_set := 0
  let c0c1_bits_set := count_if_set input 0b00001000 c0c1_bits_set
  let c0c1_bits_set := count_if_set input 0b00000100 c0c1_bits_set
  let c0c1_bits_set := count_if_set input 0b00000010 c0c1_bits_set
  let c0c1_bits_set := count_if_set input 0b00000001 c0c1_bits_set
  c0c1_bits_set

/-- The block `// c0c2`: masks `0b00000010`, `0b00000001`, `0b00100000`,
`0b00010000`. -/
def c0c2_bits_set (input : Nat) : Nat :=
  let c0c2_bits_set := 0
  let c0c2_bits_set := count_if_set input 0b00000010 c0c2_bits_set
  let c0c2_bits_set := count_if_set input 0b00000001 c0c2_bits_set
  let c0c2_bits_set := count_if_set input 0b00100000 c0c2_bits_set
  let c0c2_bits_set := count_if_set input 0b00010000 c0c2_bits_set
  c0c2_bits_set

/-! ## `hamming_encode` -/

/-- Lines 54-62 of `hamming_encode`: the input with its bits moved to the
positions 0, 1, 3 and 5. -/
def spread (input : Nat) : Nat :=
  -- Move bit 3 to 5
  let input := u8 (input ||| ((input &&& 0b1000) <<< 2))
  -- Clear bit 3
  let input := u8 (input &&& 0b11110111)
  -- Move bit 2 to 3
  let input := u8 (input ||| ((input &&& 0b100) <<< 1))
  -- Clear bit 2
  let input := u8 (input &&& 0b11111011)
  input

/-- The function `bool hamming_encode(uint8_t in, uint8_t* out)`. -/
def hamming_encode (input : Nat) : Option Nat :=
  if (input &&& 0b11110000) > 0 then
    none
  else
    let input := spread input
    let r0_parity_bit := if r0_bits_set input % 2 = 0 then 0 else 1
    let c0c1_parity_bit := if c0c1_bits_set input % 2 = 0 then 0 else 1
    let c0c2_parity_bit := if c0c2_bits_set input % 2 = 0 then 0 else 1
    -- Move parity bits to correct locations
    let r0_parity_bit := u8 (r0_parity_bit <<< 5)
    let c0c1_parity_bit := u8 (c0c1_parity_bit <<< 1)
    let c0c2_parity_bit := u8 (c0c2_parity_bit <<< 3)
    let parity_mask := u8 (r0_parity_bit ||| c0c1_parity_bit ||| c0c2_parity_bit)
    some (u8 (input ||| parity_mask))

/-! ## `hamming_verify` -/

/-- Lines 210-260 of `hamming_verify`: the nested conditionals that turn the
three flags into the value stored in `*error_index`. -/
def locate (r0_even_bit_sets c0c1_even_bits_set c0c2_even_bits_set : Nat) : Nat :=
  if r0_even_bit_sets = 0 then
    if c0c1_even_bits_set = 0 then
      if c0c2_even_bits_set = 0 then 0 else 2
    else
      if c0c2_even_bits_set = 0 then 4 else 6
  else
    if c0c1_even_bits_set = 0 then
      if c0c2_even_bits_set = 0 then 1 else 3
    else
      if c0c2_even_bits_set = 0 then 5 else UINT8_MAX

/-- The function `bool hamming_verify(uint8_t in, uint8_t* error_index)`. -/
def hamming_verify (input : Nat) : Option Nat :=
  let r0_even_bit_sets := if r0_bits_set input % 2 = 0 then 1 else 0
  let c0c1_even_bits_set := if c0c1_bits_set input % 2 = 0 then 1 else 0
  let c0c2_even_bits_set := if c0c2_bits_set input % 2 = 0 then 1 else 0
  some (locate r0_even_bit_sets c0c1_even_bits_set c0c2_even_bits_set)

/-! ## The reference constructions of the specification

These definitions follow the words of the specification (sections 4.1 to
4.3), not the C text; the theorems below compare them with the code. -/

/-- Parity group R0 of section 4.1: bit 7, bit 4, bit 2, bit 0. -/
def spec_R0 : List Nat := [7, 4, 2, 0]

/-- Parity group C0C1 of section 4.1: bit 3, bit 2, bit 1, bit 0. -/
def spec_C0C1 : List Nat := [3, 2, 1, 0]

/-- Parity group C0C2 of section 4.1: bit 1, bit 0, bit 5, bit 4. -/
def spec_C0C2 : List Nat := [1, 0, 5, 4]

/-- Bit `i` of `x` as a number, `0` or `1`. -/
def spec_bit (x i : Nat) : Nat := if x.testBit i then 1 else 0

/-- Number of set bits of `x` among the members of a group. -/
def spec_set_bits (x : Nat) (group : List Nat) : Nat :=
  (group.filter (fun i => x.testBit i)).length

/-- Parity of a group (section 4.1): `1` if the number of set bits among its
members is odd, else `0`. -/
def spec_parity (x : Nat) (group : List Nat) : Nat :=
  if spec_set_bits x group % 2 = 1 then 1 else 0

/-- The "even" flag of a group (section 4.3, step 2): `1` if the number of set
bits among its members is even, `0` if it is odd. -/
def spec_even_flag (x : Nat) (group : List Nat) : Nat :=
  if spec_set_bits x group % 2 = 0 then 1 else 0

/-- The decision table of section 4.3, step 3, row by row; a triple that is
not a row of the table has no entry. -/
def spec_decision_table : Nat → Nat → Nat → Option Nat
  | 0, 0, 0 => some 0
  | 0, 0, 1 => some 2
  | 0, 1, 0 => some 4
  | 0, 1, 1 => some 6
  | 1, 0, 0 => some 1
  | 1, 0, 1 => some 3
  | 1, 1, 0 => some 5
  | 1, 1, 1 => some 255
  | _, _, _ => none

/-- The working byte of section 4.2, step 2: bit 0 and bit 1 of the nibble stay
in place, its bit 2 sits at position 3, its bit 3 at position 5, and every other
position is clear. -/
def spec_working_byte (n : Nat) : Nat :=
  spec_bit n 0 * 2 ^ 0 + spec_bit n 1 * 2 ^ 1 + spec_bit n 2 * 2 ^ 3 + spec_bit n 3 * 2 ^ 5

/-- The codeword of section 4.2, steps 3 and 4: the working byte combined by
bitwise OR with the parities of R0, C0C1, C0C2 shifted to the positions 5, 1
and 3. -/
def spec_codeword (n : Nat) : Nat :=
  let w := spec_working_byte n
  w ||| (spec_parity w spec_R0 <<< 5) ||| (spec_parity w spec_C0C1 <<< 1)
    ||| (spec_parity w spec_C0C2 <<< 3)

/-! ## Theorems -/

set_option maxRecDepth 100000

/-- Claim C1, evaluated on the code at the nibble `1`: `hamming_encode` returns
the codeword `0x2B`, and `hamming_verify` of this unmodified codeword stores the
index `0`, not the sentinel `255`: the groups R0, C0C1 and C0C2 of `0x2B` each
hold an odd number of set bits. -/
theorem round_trip_fails_at_one :
    hamming_encode 1 = some 0x2B ∧ hamming_verify 0x2B = some 0 ∧
      r0_bits_set 0x2B % 2 = 1 ∧ c0c1_bits_set 0x2B % 2 = 1 ∧ c0c2_bits_set 0x2B % 2 = 1 := by
  decide

/-- Claim C2, evaluated on the code at two inputs.  For the nibble `0` and the
position `6` the codeword is `0x00` and `hamming_verify (0x00 XOR 2^6)` stores
`255`, not `6`.  For the nibble `1` and the position `0` the codeword is `0x2B`
and `hamming_verify (0x2B XOR 2^0)` stores `255`, not `0`. -/
theorem single_bit_location_fails :
    (hamming_encode 0 = some 0x00 ∧ hamming_verify (0x00 ^^^ 2 ^ 6) = some 255) ∧
      (hamming_encode 1 = some 0x2B ∧ hamming_verify (0x2B ^^^ 2 ^ 0) = some 255) := by
  decide

/-- Claim C3: for every byte `x`, `hamming_encode x` fails exactly when one of
the bits 4 to 7 of `x` is set, and it succeeds exactly when `x ≤ 15`. -/
theorem hamming_encode_fails_iff_high_bit (x : Nat) (hx : x < 256) :
    (hamming_encode x = none ↔
        (x.testBit 4 = true ∨ x.testBit 5 = true ∨ x.testBit 6 = true ∨ x.testBit 7 = true)) ∧
      ((hamming_encode x).isSome = true ↔ x ≤ 15) := by
  revert x
  decide

theorem hamming_encode_fails_iff_high_bit_witness :
    (hamming_encode 0x40 = none ↔
        (Nat.testBit 0x40 4 = true ∨ Nat.testBit 0x40 5 = true ∨ Nat.testBit 0x40 6 = true
          ∨ Nat.testBit 0x40 7 = true)) ∧
      ((hamming_encode 0x40).isSome = true ↔ 0x40 ≤ 15) :=
  hamming_encode_fails_iff_high_bit 0x40 (by decide)

/-- Claim C4: for every byte `c`, the index stored by `hamming_verify c` is the
entry of the decision table of the specification at the three "even" flags of
`c` for the groups {7,4,2,0}, {3,2,1,0} and {1,0,5,4}. -/
theorem hamming_verify_eq_decision_table (c : Nat) (hc : c < 256) :
    hamming_verify c =
      spec_decision_table (spec_even_flag c spec_R0) (spec_even_flag c spec_C0C1)
        (spec_even_flag c spec_C0C2) := by
  revert c
  decide

theorem hamming_verify_eq_decision_table_witness :
    hamming_verify 0x07 =
      spec_decision_table (spec_even_flag 0x07 spec_R0) (spec_even_flag 0x07 spec_C0C1)
        (spec_even_flag 0x07 spec_C0C2) :=
  hamming_verify_eq_decision_table 0x07 (by decide)

/-- Claim C5: for every byte `c`, `hamming_verify c` returns `true` and the
index it stores is one of `0, ..., 7` or the sentinel `255`. -/
theorem hamming_verify_total (c : Nat) (hc : c < 256) :
    ∃ e, hamming_verify c = some e ∧ (e ≤ 7 ∨ e = UINT8_MAX) := by
  revert c
  decide

theorem hamming_verify_total_witness :
    ∃ e, hamming_verify 0xB6 = some e ∧ (e ≤ 7 ∨ e = UINT8_MAX) :=
  hamming_verify_total 0xB6 (by decide)

/-- Claim C6, evaluated on the code at the nibble `0`: the codeword is `0x00`,
`hamming_verify 0x00` stores the sentinel `255`, and with bit 7 flipped
`hamming_verify (0x00 XOR 0x80)` stores `6`, not `255`: the first mask of the
block `// r0` selects bit 7. -/
theorem bit7_flip_is_reported :
    hamming_encode 0 = some 0x00 ∧ hamming_verify 0x00 = some 255 ∧
      hamming_verify (0x00 ^^^ 0x80) = some 6 ∧ r0_bits_set 0x80 = 1 := by
  decide

/-- Claim C7: for every nibble `n ≤ 15`, `hamming_encode n` succeeds with the
codeword of the reference construction: the working byte `w` carrying the bits
0, 1, 2, 3 of `n` at the positions 0, 1, 3, 5, combined by OR with the parities of
`w` over {7,4,2,0}, {3,2,1,0}, {1,0,5,4} shifted left by 5, 1 and 3. -/
theorem hamming_encode_eq_spec_codeword (n : Nat) (hn : n ≤ 15) :
    hamming_encode n = some (spec_codeword n) := by
  revert n
  decide

theorem hamming_encode_eq_spec_codeword_witness :
    hamming_encode 0b1010 = some (spec_codeword 0b1010) :=
  hamming_encode_eq_spec_codeword 0b1010 (by decide)

/-- Claim C8, evaluated on the code at the nibble `1`: the codeword is `0x2B`,
whose bit 1 is set although bit 1 of the nibble is clear (the parity of the
group c0c1 is OR-ed onto position 1); and at the nibble `2`: the codeword is
`0x0A`, whose bit 3 is set although bit 2 of the nibble is clear. -/
theorem data_bit_overwritten_by_parity :
    (hamming_encode 1 = some 0x2B ∧ Nat.testBit 0x2B 1 = true ∧ Nat.testBit 1 1 = false) ∧
      (hamming_encode 2 = some 0x0A ∧ Nat.testBit 0x0A 3 = true ∧ Nat.testBit 2 2 = false) := by
  decide

/-- Claim C9: for every nibble `n ≤ 15`, `hamming_encode n` succeeds and the
bits 2, 4, 6 and 7 of the codeword are `0`, that is, the codeword AND
`0b11010100` is `0`. -/
theorem hamming_encode_reserved_bits_clear (n : Nat) (hn : n ≤ 15) :
    ∃ c, hamming_encode n = some c ∧ c &&& 0b11010100 = 0 ∧
      (c.testBit 2 = false ∧ c.testBit 4 = false ∧ c.testBit 6 = false ∧ c.testBit 7 = false) := by
  revert n
  decide

theorem hamming_encode_reserved_bits_clear_witness :
    ∃ c, hamming_encode 0b0111 = some c ∧ c &&& 0b11010100 = 0 ∧
      (c.testBit 2 = false ∧ c.testBit 4 = false ∧ c.testBit 6 = false ∧ c.testBit 7 = false) :=
  hamming_encode_reserved_bits_clear 0b0111 (by decide)

/-- Claim C10 as stated fails: `hamming_encode 0b00001111` is not the failure
result. -/
theorem hamming_encode_0x0F_not_rejected : ¬ (hamming_encode 0b00001111 = none) := by
  decide

/-- Claim C10, amended: `hamming_encode 0b00001111` is accepted, it returns
`true` and produces the codeword `0x2B`. -/
theorem hamming_encode_0x0F_accepted : hamming_encode 0b00001111 = some 0x2B := by
  decide

/-- Claim C11: `hamming_encode 0b00000000` succeeds and the codeword it
produces is `0x00`, every bit of which is `0`. -/
theorem hamming_encode_zero :
    hamming_encode 0b00000000 = some 0x00 ∧ (∀ i, Nat.testBit 0x00 i = false) := by
  exact ⟨by decide, fun i => Nat.zero_testBit i⟩

/-- Claim C12, evaluated on the code at the bytes `0x00` and `0x0F`:
`hamming_verify` stores `255` for each of them and `6` once bit 7 is flipped
(`0x80`, `0x8F`), so the flip is observed: it changes the count of the block
`// r0`, whose first mask is `0x80`. -/
theorem bit7_flip_changes_verify :
    (hamming_verify 0x00 = some 255 ∧ hamming_verify (0x00 ^^^ 0x80) = some 6) ∧
      (hamming_verify 0x0F = some 255 ∧ hamming_verify (0x0F ^^^ 0x80) = some 6) ∧
      (r0_bits_set 0x0F = 2 ∧ r0_bits_set (0x0F ^^^ 0x80) = 3) := by
  decide

/-- Claim C13, evaluated on the code at the nibble `1`: the working byte is
`0x01`, each of the groups r0, c0c1, c0c2 holds an odd number of its set bits
(parity `1`), and the codeword is `0x2B`, whose bits 6, 2 and 4 are all `0`;
the three parity bits sit at the positions 5, 1 and 3. -/
theorem parity_bits_not_at_documented_positions :
    spread 1 = 0x01 ∧
      (r0_bits_set 0x01 % 2 = 1 ∧ c0c1_bits_set 0x01 % 2 = 1 ∧ c0c2_bits_set 0x01 % 2 = 1) ∧
      hamming_encode 1 = some 0x2B ∧
      (Nat.testBit 0x2B 6 = false ∧ Nat.testBit 0x2B 2 = false ∧ Nat.testBit 0x2B 4 = false) ∧
      (Nat.testBit 0x2B 5 = true ∧ Nat.testBit 0x2B 1 = true ∧ Nat.testBit 0x2B 3 = true) := by
  decide

/-- Claim C14: for every byte `c` for which `hamming_verify c` stores the
sentinel `255` and every position `p` in `0, ..., 5`, `hamming_verify` of `c`
with bit `p` flipped stores exactly `p`. -/
theorem hamming_verify_locates_flip (c p : Nat) (hc : c < 256)
    (hv : hamming_verify c = some 255) (hp : p ≤ 5) :
    hamming_verify (c ^^^ 2 ^ p) = some p := by
  have all_bytes : ∀ b, b < 256 → hamming_verify b = some 255 →
      ∀ q, q ≤ 5 → hamming_verify (b ^^^ 2 ^ q) = some q := by
    decide
  exact all_bytes c hc hv p hp

theorem hamming_verify_locates_flip_witness :
    0b00001111 ^^^ 2 ^ 3 = 0b00000111 ∧ hamming_verify (0b00001111 ^^^ 2 ^ 3) = some 3 :=
  ⟨by decide, hamming_verify_locates_flip 0b00001111 3 (by decide) (by decide) (by decide)⟩

/-- Claim C15: `hamming_encode` is not injective on the nibbles: `2` and `4`
are distinct, both at most `15`, and both are encoded as `0x0A`; hence no
function recovers every nibble from its codeword. -/
theorem hamming_encode_not_injective :
    (hamming_encode 2 = some 0x0A ∧ hamming_encode 4 = some 0x0A) ∧
      (∃ a b, a ≠ b ∧ a ≤ 15 ∧ b ≤ 15 ∧
        ∃ c, hamming_encode a = some c ∧ hamming_encode b = some c) ∧
      ¬ ∃ decode : Nat → Nat, ∀ n, n ≤ 15 → ∀ c, hamming_encode n = some c → decode c = n := by
  have e2 : hamming_encode 2 = some 0x0A := by decide
  have e4 : hamming_encode 4 = some 0x0A := by decide
  refine ⟨⟨e2, e4⟩, ⟨2, 4, by decide, by decide, by decide, 0x0A, e2, e4⟩, ?_⟩
  rintro ⟨decode, h⟩
  have h2 := h 2 (by decide) 0x0A e2
  have h4 := h 4 (by decide) 0x0A e4
  omega

/-- Claim C16: for every byte `c`, `hamming_verify` stores the same index for
`c` and for `c` with bit 6 flipped; none of the three counters changes, since
no mask of the blocks `// r0`, `// c0c1`, `// c0c2` selects bit 6. -/
theorem hamming_verify_ignores_bit6 (c : Nat) (hc : c < 256) :
    hamming_verify (c ^^^ 0x40) = hamming_verify c ∧
      (r0_bits_set (c ^^^ 0x40) = r0_bits_set c ∧ c0c1_bits_set (c ^^^ 0x40) = c0c1_bits_set c ∧
        c0c2_bits_set (c ^^^ 0x40) = c0c2_bits_set c) := by
  revert c
  decide

theorem hamming_verify_ignores_bit6_witness :
    hamming_verify (0x2B ^^^ 0x40) = hamming_verify 0x2B ∧
      (r0_bits_set (0x2B ^^^ 0x40) = r0_bits_set 0x2B ∧
        c0c1_bits_set (0x2B ^^^ 0x40) = c0c1_bits_set 0x2B ∧
        c0c2_bits_set (0x2B ^^^ 0x40) = c0c2_bits_set 0x2B) :=
  hamming_verify_ignores_bit6 0x2B (by decide)

/-- Claim C17: for every byte `c` the index stored by `hamming_verify c` is one
of `0, 1, 2, 3, 4, 5, 6, 255`, never `7`, and each of these eight values is
stored for some byte. -/
theorem hamming_verify_index_range :
    (∀ c, c < 256 → ∃ e, hamming_verify c = some e ∧ e ∈ [0, 1, 2, 3, 4, 5, 6, 255]) ∧
      (∀ c, c < 256 → hamming_verify c ≠ some 7) ∧
      (∀ e, e ∈ [0, 1, 2, 3, 4, 5, 6, 255] → ∃ c, c < 256 ∧ hamming_verify c = some e) := by
  decide

theorem hamming_verify_index_range_witness :
    (∃ e, hamming_verify 0xC9 = some e ∧ e ∈ [0, 1, 2, 3, 4, 5, 6, 255]) ∧
      hamming_verify 0xC9 ≠ some 7 ∧ (∃ c, c < 256 ∧ hamming_verify c = some 6) :=
  ⟨hamming_verify_index_range.1 0xC9 (by decide),
    hamming_verify_index_range.2.1 0xC9 (by decide),
    hamming_verify_index_range.2.2 6 (by decide)⟩

end Hamming
